import Mathlib

/-!
Shallow embedding of the kocache single-flight cache (src/kocache.go) and
proofs of the specification claims about it.

Modelling conventions:
* `time.Time` / `time.Duration` are modelled as `Int` (nanoseconds); the Go
  zero `time.Time` used as the "no expiration" sentinel becomes `Option Int`
  with `none` as the sentinel (`expireAt.IsZero()` ⟷ `expireAt = none`).
* A Go `error` value is `Option Err` (`none` = `nil`).
* The `entry.lock` channel is modelled by a `Bool`: `true` means the channel
  is present (entry pending), `false` means `lock == nil` (entry resolved) —
  exactly the discrimination `getWithTimeout` performs.
* `entry.getWithTimeout` gives the sequential semantics: in the pending case
  with a finite timeout it returns the timeout error (the run in which no
  resolution arrives during the wait); a pending wait with negative timeout
  is the `blocked` outcome.  The concurrent resolve/wake-up behaviour is
  modelled separately by the `Step`/`Steps` transition system.
* The uint32 statistics counters wrap at 2^32 (`atomic.AddUint32`).
-/

namespace Kocache

/-- Sentinel errors of the package (`ErrEntryNotFound`, `ErrExpired`,
`ErrGetCacheTimeout`) plus opaque producer-supplied errors. -/
inductive Err where
  | entryNotFound
  | expired
  | getCacheTimeout
  | producer (code : Nat)
deriving DecidableEq, Repr

/-- Outcome of a `Get`/`GetWithTimeout` call: either the call never returns
(`blocked`: pending entry, negative timeout, no resolution ever), or it
returns Go's `(value, err)` pair. -/
inductive GetResult (V : Type) where
  | blocked
  | done (value : V) (error : Option Err)
deriving DecidableEq, Repr

/-- Model of `entry[V]` from src/kocache.go: `lock = true` means the lock
channel exists (pending); `expireAt = none` models the zero `time.Time`
(no expiration). -/
structure Entry (V : Type) where
  lock : Bool
  value : V
  err : Option Err
  expireAt : Option Int
deriving DecidableEq, Repr

/-- The entry built by `ReserveWithLifetime`:
`&entry[V]{lock: make(chan struct{})}` — pending, zero value, nil error,
zero `expireAt`. -/
def Entry.fresh (V : Type) [Inhabited V] : Entry V :=
  { lock := true, value := default, err := none, expireAt := none }

/-- Model of `entry.Expired`: `!ce.expireAt.IsZero() && now.After(ce.expireAt)`
(`time.After` is strict). -/
def Entry.Expired (en : Entry V) (now : Int) : Bool :=
  match en.expireAt with
  | none => false
  | some t => decide (t < now)

/-- Model of `entry.getWithTimeout`.  A present lock with negative timeout
waits on the lock (outcome `blocked` when no resolution arrives); a present
lock with non-negative timeout runs the `select` and, no resolution arriving
within the budget, takes the `time.After` branch.  With the lock gone the
resolved state is read: a non-nil `err` is returned with the named zero
return value `v`, otherwise the value. -/
def Entry.getWithTimeout [Inhabited V] (en : Entry V) (timeout : Int) : GetResult V :=
  if en.lock then
    if timeout < 0 then GetResult.blocked
    else GetResult.done default (some Err.getCacheTimeout)
  else
    match en.err with
    | some e => GetResult.done default (some e)
    | none => GetResult.done en.value none

/-- Model of `entry.get`: `getWithTimeout(-1)`. -/
def Entry.get [Inhabited V] (en : Entry V) : GetResult V :=
  en.getWithTimeout (-1)

/-- The state mutation performed by the `resolve` closure of
`ReserveWithLifetime` (past its double-resolve guard): store value and
error, set `expireAt` from the reservation lifetime when `lifetime >= 0`,
close the lock channel and drop it (`lock = nil`). -/
def resolveEntry (en : Entry V) (v : V) (e : Option Err) (lifetime now : Int) : Entry V :=
  { lock := false
    value := v
    err := e
    expireAt := if 0 ≤ lifetime then some (now + lifetime) else en.expireAt }

/-- One reservation: the entry together with the `reserved` flag guarded by
the closure's mutex in `ReserveWithLifetime`. -/
structure Slot (V : Type) where
  reserved : Bool
  entry : Entry V
deriving DecidableEq, Repr

/-- A freshly reserved slot: guard unset, pending entry. -/
def Slot.fresh (V : Type) [Inhabited V] : Slot V :=
  { reserved := false, entry := Entry.fresh V }

/-- Model of the `resolve` closure returned by `ReserveWithLifetime`:
`panic("already reserved")` on a second call (modelled by `Except.error`),
otherwise set the guard and resolve the entry. -/
def Slot.resolve (s : Slot V) (v : V) (e : Option Err) (lifetime now : Int) :
    Except String (Slot V) :=
  if s.reserved then Except.error "already reserved"
  else Except.ok { reserved := true, entry := resolveEntry s.entry v e lifetime now }

/-- Modelled from the spec: the Bounded Key-Value Store (hashicorp
golang-lru, a dependency not in src/) as an association list in
most-recently-used-first order.  `Lookup` returns the slot and marks it
most-recently-used. -/
def lruGet [DecidableEq K] (store : List (K × Entry V)) (key : K) :
    List (K × Entry V) × Option (Entry V) :=
  match store.find? (fun p => decide (p.1 = key)) with
  | none => (store, none)
  | some p => ((key, p.2) :: store.filter (fun q => decide (q.1 ≠ key)), some p.2)

/-- Modelled from the spec: `Insert(key, slot)` inserts or replaces the slot
for `key`, marks it most-recently-used, and evicts the single
least-recently-used entry when the store exceeds its fixed capacity. -/
def lruAdd [DecidableEq K] (store : List (K × Entry V)) (cap : Nat) (key : K)
    (en : Entry V) : List (K × Entry V) :=
  let store' := (key, en) :: store.filter (fun q => decide (q.1 ≠ key))
  if cap < store'.length then store'.dropLast else store'

/-- Pure lookup in the store (no recency update): the entry currently bound
to `key`, used to state hypotheses about a cache's contents. -/
def storeFind [DecidableEq K] (store : List (K × Entry V)) (key : K) : Option (Entry V) :=
  (store.find? (fun p => decide (p.1 = key))).map Prod.snd

/-- Model of `Cache[K, V]`: the LRU store, the fields of `options`, and the
two `Stats` counters. -/
structure Cache (K V : Type) where
  store : List (K × Entry V)
  size : Nat
  withStats : Bool
  defaultLifetime : Int
  hits : Nat
  misses : Nat
deriving DecidableEq, Repr

/-- Model of `Cache.getEntry`: LRU lookup, then (when stats are enabled) a
hit increment if found, a miss increment otherwise; uint32 counters wrap
at 2^32. -/
def getEntry [DecidableEq K] (c : Cache K V) (key : K) : Cache K V × Option (Entry V) :=
  let r := lruGet c.store key
  let c1 : Cache K V := { c with store := r.1 }
  let c2 : Cache K V :=
    if c.withStats then
      match r.2 with
      | some _ => { c1 with hits := (c1.hits + 1) % 2 ^ 32 }
      | none => { c1 with misses := (c1.misses + 1) % 2 ^ 32 }
    else c1
  (c2, r.2)

/-- Model of `Cache.GetWithTimeout`: absent key fails with `ErrEntryNotFound`
(Go returns the named zero `value`), an expired entry fails with
`ErrExpired`, otherwise the entry is awaited. -/
def GetWithTimeout [DecidableEq K] [Inhabited V] (c : Cache K V) (key : K)
    (timeout now : Int) : Cache K V × GetResult V :=
  match getEntry c key with
  | (c', none) => (c', GetResult.done default (some Err.entryNotFound))
  | (c', some en) =>
    if en.Expired now then (c', GetResult.done default (some Err.expired))
    else (c', en.getWithTimeout timeout)

/-- Model of `Cache.Get`: `GetWithTimeout(key, -1)`. -/
def Get [DecidableEq K] [Inhabited V] (c : Cache K V) (key : K) (now : Int) :
    Cache K V × GetResult V :=
  GetWithTimeout c key (-1) now

/-- Model of `Cache.Len`: the store's entry count. -/
def Len (c : Cache K V) : Nat := c.store.length

/-- The store mutation of `Cache.ReserveWithLifetime`: add a fresh pending
entry under `key` (possibly evicting the least-recently-used entry).  The
returned resolve closure is modelled by `Slot.resolve` / `resolveInStore`. -/
def ReserveWithLifetime [DecidableEq K] [Inhabited V] (c : Cache K V) (key : K)
    (lifetime : Int) : Cache K V :=
  { c with store := lruAdd c.store c.size key (Entry.fresh V) }

/-- Model of `Cache.Reserve`: `ReserveWithLifetime(key, c.opts.defaultLifetime)`. -/
def Reserve [DecidableEq K] [Inhabited V] (c : Cache K V) (key : K) : Cache K V :=
  ReserveWithLifetime c key c.defaultLifetime

/-- Effect on the cache of invoking the resolve closure while its entry is
still in the store: the closure mutates the entry in place through its
pointer, so the store's binding for `key` becomes the resolved entry. -/
def resolveInStore [DecidableEq K] (c : Cache K V) (key : K) (v : V) (e : Option Err)
    (lifetime now : Int) : Cache K V :=
  { c with store :=
      c.store.map (fun p => if p.1 = key then (key, resolveEntry p.2 v e lifetime now) else p) }

/-- The `cache.ReserveWithLifetime(key, lt)(v, e)` pattern of the tests:
reserve and immediately resolve. -/
def reserveResolve [DecidableEq K] [Inhabited V] (c : Cache K V) (key : K)
    (lifetime : Int) (v : V) (e : Option Err) (now : Int) : Cache K V :=
  resolveInStore (ReserveWithLifetime c key lifetime) key v e lifetime now

/-- Model of `options` as accumulated by `New`. -/
structure Options where
  size : Int
  withStats : Bool
  defaultLifetime : Int
deriving DecidableEq, Repr

/-- Model of the `Option` values `WithStats`, `WithSize`, `WithDefaultLifetime`. -/
inductive COption where
  | withStats
  | withSize (size : Int)
  | withDefaultLifetime (d : Int)
deriving DecidableEq, Repr

/-- Model of `Option.Apply`. -/
def COption.applyOpt (o : COption) (opts : Options) : Options :=
  match o with
  | COption.withStats => { opts with withStats := true }
  | COption.withSize n => { opts with size := n }
  | COption.withDefaultLifetime d => { opts with defaultLifetime := d }

/-- The defaults `New` starts from: `size: DefaultSize` (= 1024),
`withStats: false`, `defaultLifetime: -1` (no expiration). -/
def defaultOptions : Options :=
  { size := 1024, withStats := false, defaultLifetime := -1 }

/-- Model of `New`: fold the options over the defaults, then build the LRU
store.  Modelled from the spec: `lru.New` (dependency not in src/) fails for
a non-positive size ("Invalid capacity fails construction with a
configuration error"). -/
def New (K V : Type) (opts : List COption) : Except String (Cache K V) :=
  let o := opts.foldl (fun acc op => op.applyOpt acc) defaultOptions
  if o.size ≤ 0 then Except.error "must provide a positive size"
  else Except.ok
    { store := []
      size := o.size.toNat
      withStats := o.withStats
      defaultLifetime := o.defaultLifetime
      hits := 0
      misses := 0 }

/-- Concurrent system around one reservation: the slot (with its
resolve-once guard), the lifetime captured by the resolve closure, and a
family of readers indexed by `Nat`, each either still blocked in
`Get` (`none`) or returned with a result (`some r`). -/
structure Sys (V : Type) where
  slot : Slot V
  lifetime : Int
  waiters : Nat → Option (GetResult V)

/-- The system right after `ReserveWithLifetime`: fresh pending slot, every
reader still blocked on the lock channel. -/
def Sys.init (V : Type) [Inhabited V] (lifetime : Int) : Sys V :=
  { slot := Slot.fresh V, lifetime := lifetime, waiters := fun _ => none }

/-- Interleaving semantics of the resolve closure and the blocked readers.
`resolve` is the producer invoking the callback (legal only once: the
`reserved` guard); it writes value/error/expireAt and closes the lock in one
mutex-protected critical section.  `complete` is a reader whose
`<-lock` receive fires — possible only once the channel is closed
(`lock = false`) — and who then returns `entry.get`. -/
inductive Step [Inhabited V] : Sys V → Sys V → Prop where
  | resolve (s : Sys V) (v : V) (e : Option Err) (now : Int)
      (hg : s.slot.reserved = false) :
      Step s
        { slot := { reserved := true, entry := resolveEntry s.slot.entry v e s.lifetime now }
          lifetime := s.lifetime
          waiters := s.waiters }
  | complete (s : Sys V) (i : Nat)
      (hw : s.waiters i = none) (hl : s.slot.entry.lock = false) :
      Step s
        { slot := s.slot
          lifetime := s.lifetime
          waiters := Function.update s.waiters i (some s.slot.entry.get) }

/-- Reflexive-transitive closure of `Step`: the reachable executions. -/
inductive Steps [Inhabited V] : Sys V → Sys V → Prop where
  | refl (s : Sys V) : Steps s s
  | tail {a b c : Sys V} (h : Steps a b) (hs : Step b c) : Steps a c

/-- Invariant of every state reachable from `Sys.init`: while the resolve
callback has not run the entry is untouched (pending) and no reader has
returned; once the lock is closed the callback has run; and every returned
reader holds exactly `entry.get` of the (henceforth immutable) entry. -/
def SysInv [Inhabited V] (s : Sys V) : Prop :=
  (s.slot.reserved = false → s.slot.entry = Entry.fresh V ∧ ∀ i, s.waiters i = none)
  ∧ (s.slot.entry.lock = false → s.slot.reserved = true)
  ∧ (∀ i r, s.waiters i = some r → r = s.slot.entry.get ∧ s.slot.entry.lock = false)

/-- The single-flight property at a system state: no reader returns before
the resolve callback runs; all returned readers hold the same result; every
returned reader holds exactly the resolved entry payload; and once resolved,
no step changes the slot again (the guard makes a second resolve
impossible), so the one designated producer is never duplicated. -/
def SingleFlightSpec [Inhabited V] (s : Sys V) : Prop :=
  (s.slot.reserved = false → ∀ i, s.waiters i = none)
  ∧ (∀ i j ri rj, s.waiters i = some ri → s.waiters j = some rj → ri = rj)
  ∧ (∀ i r, s.waiters i = some r → s.slot.entry.lock = false ∧ r = s.slot.entry.get)
  ∧ (s.slot.reserved = true → ∀ s', Step s s' → s'.slot = s.slot)

/-- The cache built by `New(WithSize(5))` in the eviction scenario. -/
def evictCache0 : Cache String String :=
  { store := [], size := 5, withStats := false, defaultLifetime := -1, hits := 0, misses := 0 }

/-- The scenario cache after reserving and resolving keys "1" through "5"
(default lifetime -1, all resolves at time 0). -/
def evictCache5 : Cache String String :=
  reserveResolve (reserveResolve (reserveResolve (reserveResolve (reserveResolve
    evictCache0 "1" (-1) "value1" none 0)
    "2" (-1) "value2" none 0)
    "3" (-1) "value3" none 0)
    "4" (-1) "value4" none 0)
    "5" (-1) "value5" none 0

/-- The scenario cache after additionally reserving and resolving "6". -/
def evictCache6 : Cache String String :=
  reserveResolve evictCache5 "6" (-1) "value6" none 0

/-- The scenario cache after the successful `Get("2")` (which marks "2"
recently used). -/
def evictCache6r : Cache String String :=
  (Get evictCache6 "2" 0).1

/-- The scenario cache after additionally reserving and resolving "7". -/
def evictCache7 : Cache String String :=
  reserveResolve evictCache6r "7" (-1) "value7" none 0

/-- Concrete cache for the C3 witness: one slot resolved at time 100 with
lifetime 10 and value 7. -/
def c3Cache : Cache Nat Nat :=
  { store := [(1, resolveEntry (Entry.fresh Nat) 7 none 10 100)]
    size := 5
    withStats := false
    defaultLifetime := -1
    hits := 0
    misses := 0 }

/-- Concrete cache for the C4 witness: statistics enabled, one slot resolved
at time 100 with lifetime 10 (expired by time 200). -/
def c4Cache : Cache Nat Nat :=
  { store := [(1, resolveEntry (Entry.fresh Nat) 7 none 10 100)]
    size := 5
    withStats := true
    defaultLifetime := -1
    hits := 3
    misses := 4 }

/-- Concrete cache for the C5 witness: statistics enabled, empty store. -/
def c5Cache : Cache Nat Nat :=
  { store := []
    size := 5
    withStats := true
    defaultLifetime := -1
    hits := 3
    misses := 4 }

/-- Concrete cache for the C6 witness: one pending (freshly reserved) slot. -/
def c6Cache : Cache Nat Nat :=
  { store := [(1, Entry.fresh Nat)]
    size := 5
    withStats := false
    defaultLifetime := -1
    hits := 0
    misses := 0 }

/-- Concrete cache for the C9 witness: one slot resolved with value 7 and a
producer error. -/
def c9Cache : Cache Nat Nat :=
  { store := [(1, resolveEntry (Entry.fresh Nat) 7 (some (Err.producer 9)) (-1) 100)]
    size := 5
    withStats := false
    defaultLifetime := -1
    hits := 0
    misses := 0 }

/-- Concrete cache for the C10 witness: empty, capacity 2. -/
def c10Cache : Cache Nat Nat :=
  { store := []
    size := 2
    withStats := false
    defaultLifetime := -1
    hits := 0
    misses := 0 }

theorem sysInv_init (V : Type) [Inhabited V] (lt : Int) : SysInv (Sys.init V lt) := by
  refine ⟨fun _ => ⟨rfl, fun i => rfl⟩, fun h => ?_, fun i r h => ?_⟩
  · simp [Sys.init, Slot.fresh, Entry.fresh] at h
  · simp [Sys.init] at h

theorem sysInv_step [Inhabited V] {a b : Sys V} (hinv : SysInv a) (hs : Step a b) :
    SysInv b := by
  obtain ⟨h1, h2, h3⟩ := hinv
  cases hs with
  | resolve v e now hg =>
    refine ⟨fun hres => by simp at hres, fun _ => rfl, fun i r hw => ?_⟩
    have hw' : a.waiters i = some r := hw
    rw [(h1 hg).2 i] at hw'
    exact Option.noConfusion hw'
  | complete i hw hl =>
    refine ⟨fun hres => ?_, h2, fun j r hwj => ?_⟩
    · have hres' : a.slot.reserved = false := hres
      rw [h2 hl] at hres'
      exact Bool.noConfusion hres'
    · have hwj' : Function.update a.waiters i (some a.slot.entry.get) j = some r := hwj
      rw [Function.update_apply] at hwj'
      by_cases hji : j = i
      · rw [if_pos hji] at hwj'
        exact ⟨(Option.some_inj.mp hwj').symm, hl⟩
      · rw [if_neg hji] at hwj'
        exact h3 j r hwj'

theorem sysInv_steps [Inhabited V] {a b : Sys V} (hinv : SysInv a) (hs : Steps a b) :
    SysInv b := by
  induction hs with
  | refl => exact hinv
  | tail h hstep ih => exact sysInv_step ih hstep

/-- C1: starting from a pending reservation, no concurrent `Get` returns
before the resolve callback is invoked; all readers that return receive the
identical result, namely the resolved entry payload supplied to resolve;
and once resolved, the `reserved` guard makes any further resolve step
impossible, so the designated producer is unique and its work is never
redone. -/
theorem C1_single_flight (V : Type) [Inhabited V] (lt : Int) (s : Sys V)
    (h : Steps (Sys.init V lt) s) : SingleFlightSpec s := by
  obtain ⟨h1, h2, h3⟩ := sysInv_steps (sysInv_init V lt) h
  refine ⟨fun hres => (h1 hres).2, fun i j ri rj hi hj => ?_,
    fun i r hr => ⟨(h3 i r hr).2, (h3 i r hr).1⟩, fun hres s' hstep => ?_⟩
  · rw [(h3 i ri hi).1, (h3 j rj hj).1]
  · cases hstep with
    | resolve v e now hg =>
      rw [hres] at hg
      exact Bool.noConfusion hg
    | complete i hw hl => rfl

/-- Witness for C1: the concrete execution in which the producer resolves
with value 42 and then reader 0 wakes up and returns `done 42 none`. -/
theorem C1_single_flight_witness :
    SingleFlightSpec
      ({ slot := { reserved := true, entry := resolveEntry (Entry.fresh Nat) 42 none (-1) 100 }
         lifetime := -1
         waiters := Function.update (fun _ => none) 0 (some (GetResult.done 42 none)) } : Sys Nat) :=
  C1_single_flight Nat (-1) _
    (Steps.tail (Steps.tail (Steps.refl _)
      (Step.resolve (Sys.init Nat (-1)) 42 none 100 rfl))
      (Step.complete _ 0 rfl rfl))

theorem getEntry_snd (K V : Type) [DecidableEq K] (c : Cache K V) (key : K) :
    (getEntry c key).2 = storeFind c.store key := by
  unfold getEntry lruGet storeFind
  cases hf : c.store.find? (fun p => decide (p.1 = key)) <;> simp [hf]

theorem getEntry_store (K V : Type) [DecidableEq K] (c : Cache K V) (key : K) :
    (getEntry c key).1.store = (lruGet c.store key).1 := by
  unfold getEntry
  cases hs : c.withStats <;> cases hf : (lruGet c.store key).2 <;> simp [hs, hf]

theorem getEntry_size (K V : Type) [DecidableEq K] (c : Cache K V) (key : K) :
    (getEntry c key).1.size = c.size ∧ (getEntry c key).1.withStats = c.withStats
    ∧ (getEntry c key).1.defaultLifetime = c.defaultLifetime := by
  unfold getEntry
  cases hs : c.withStats <;> cases hf : (lruGet c.store key).2 <;> simp [hs, hf]

theorem getEntry_stats_hit (K V : Type) [DecidableEq K] (c : Cache K V) (key : K)
    (en : Entry V) (hfind : storeFind c.store key = some en) (hstats : c.withStats = true) :
    (getEntry c key).1.hits = (c.hits + 1) % 2 ^ 32 ∧ (getEntry c key).1.misses = c.misses := by
  have hsnd : (getEntry c key).2 = some en := by rw [getEntry_snd, hfind]
  unfold getEntry at hsnd ⊢
  cases hf : (lruGet c.store key).2 <;> rw [hf] at hsnd
  · exact Option.noConfusion hsnd
  · simp [hstats, hf]

theorem getEntry_stats_miss (K V : Type) [DecidableEq K] (c : Cache K V) (key : K)
    (hfind : storeFind c.store key = none) (hstats : c.withStats = true) :
    (getEntry c key).1.misses = (c.misses + 1) % 2 ^ 32 ∧ (getEntry c key).1.hits = c.hits := by
  have hsnd : (getEntry c key).2 = none := by rw [getEntry_snd, hfind]
  unfold getEntry at hsnd ⊢
  cases hf : (lruGet c.store key).2 <;> rw [hf] at hsnd
  · simp [hstats, hf]
  · exact Option.noConfusion hsnd

theorem getEntry_stats_off (K V : Type) [DecidableEq K] (c : Cache K V) (key : K)
    (hstats : c.withStats = false) :
    (getEntry c key).1.hits = c.hits ∧ (getEntry c key).1.misses = c.misses := by
  unfold getEntry
  simp [hstats]

theorem GetWithTimeout_fst (K V : Type) [DecidableEq K] [Inhabited V] (c : Cache K V)
    (key : K) (timeout now : Int) :
    (GetWithTimeout c key timeout now).1 = (getEntry c key).1 := by
  unfold GetWithTimeout
  rcases hge : getEntry c key with ⟨c', found⟩
  cases found
  · rfl
  · rename_i en
    by_cases hexp : en.Expired now = true <;> simp [hexp]

theorem GetWithTimeout_snd (K V : Type) [DecidableEq K] [Inhabited V] (c : Cache K V)
    (key : K) (timeout now : Int) :
    (GetWithTimeout c key timeout now).2 =
      match storeFind c.store key with
      | none => GetResult.done default (some Err.entryNotFound)
      | some en =>
        if en.Expired now then GetResult.done default (some Err.expired)
        else en.getWithTimeout timeout := by
  have hsnd := getEntry_snd K V c key
  unfold GetWithTimeout
  rcases hge : getEntry c key with ⟨c', found⟩
  rw [hge] at hsnd
  rw [← show found = storeFind c.store key from hsnd]
  cases found
  · rfl
  · rename_i en
    by_cases hexp : en.Expired now = true <;> simp [hexp]

theorem storeFind_cons_self (K V : Type) [DecidableEq K] (key : K) (en : Entry V)
    (l : List (K × Entry V)) : storeFind ((key, en) :: l) key = some en := by
  unfold storeFind
  rw [List.find?_cons_of_pos]
  · rfl
  · simp

theorem storeFind_lruAdd_self (K V : Type) [DecidableEq K] (store : List (K × Entry V))
    (cap : Nat) (key : K) (en : Entry V) (hcap : 0 < cap) :
    storeFind (lruAdd store cap key en) key = some en := by
  show storeFind
      (if cap < ((key, en) :: store.filter (fun q => decide (q.1 ≠ key))).length
       then ((key, en) :: store.filter (fun q => decide (q.1 ≠ key))).dropLast
       else (key, en) :: store.filter (fun q => decide (q.1 ≠ key))) key = some en
  rcases hfl : store.filter (fun q => decide (q.1 ≠ key)) with _ | ⟨b, l'⟩
  · rw [hfl]
    have hno : ¬ cap < ((key, en) :: ([] : List (K × Entry V))).length := by
      simp only [List.length_cons, List.length_nil]
      omega
    rw [if_neg hno]
    exact storeFind_cons_self K V key en []
  · rw [hfl]
    by_cases hover : cap < ((key, en) :: b :: l').length
    · rw [if_pos hover]
      exact storeFind_cons_self K V key en ((b :: l').dropLast)
    · rw [if_neg hover]
      exact storeFind_cons_self K V key en (b :: l')

theorem storeFind_lruGet_self (K V : Type) [DecidableEq K]
    (store : List (K × Entry V)) (key : K) :
    storeFind (lruGet store key).1 key = storeFind store key := by
  unfold lruGet storeFind
  cases hf : store.find? (fun p => decide (p.1 = key)) <;> simp [hf]

/-- C2: a resolve callback invoked a second time on the same slot hits the
`reserved` guard and panics ("already reserved", modelled by `Except.error`)
instead of performing a second write; the first resolution's value and error
are kept unchanged. -/
theorem C2_double_resolve_panics (V : Type) [Inhabited V] (v1 v2 : V)
    (e1 e2 : Option Err) (lt1 lt2 t1 t2 : Int) (s1 : Slot V)
    (h : Slot.resolve (Slot.fresh V) v1 e1 lt1 t1 = Except.ok s1) :
    Slot.resolve s1 v2 e2 lt2 t2 = Except.error "already reserved"
    ∧ s1.entry.value = v1 ∧ s1.entry.err = e1 ∧ s1.entry.lock = false := by
  have hs : s1 = { reserved := true, entry := resolveEntry (Entry.fresh V) v1 e1 lt1 t1 } := by
    simp [Slot.resolve, Slot.fresh] at h
    exact h.symm
  subst hs
  exact ⟨rfl, rfl, rfl, rfl⟩

/-- Witness for C2: resolving a fresh slot with value 1, then again with
value 2, panics and leaves value 1 and a nil error in place. -/
theorem C2_double_resolve_panics_witness :
    Slot.resolve { reserved := true, entry := resolveEntry (Entry.fresh Nat) 1 none (-1) 0 }
        2 none (-1) 5 = Except.error "already reserved"
    ∧ ({ reserved := true, entry := resolveEntry (Entry.fresh Nat) 1 none (-1) 0 } : Slot Nat).entry.value = 1
    ∧ ({ reserved := true, entry := resolveEntry (Entry.fresh Nat) 1 none (-1) 0 } : Slot Nat).entry.err = none
    ∧ ({ reserved := true, entry := resolveEntry (Entry.fresh Nat) 1 none (-1) 0 } : Slot Nat).entry.lock = false :=
  C2_double_resolve_panics Nat 1 2 none none (-1) (-1) 0 5 _ rfl

/-- C3: a slot resolved with non-negative lifetime `L` at time `rt` yields
the resolved payload from `Get`/`GetWithTimeout` whenever `now ≤ rt + L`,
fails with `ErrExpired` whenever `now > rt + L`, and a slot resolved with a
negative lifetime is never expired and always yields the resolved payload. -/
theorem C3_expiration (K V : Type) [DecidableEq K] [Inhabited V] (c : Cache K V)
    (key : K) (v : V) (e : Option Err) (L rt timeout now : Int)
    (hfind : storeFind c.store key = some (resolveEntry (Entry.fresh V) v e L rt)) :
    ((resolveEntry (Entry.fresh V) v e L rt).getWithTimeout timeout
      = match e with
        | some er => GetResult.done default (some er)
        | none => GetResult.done v none)
    ∧ (0 ≤ L → now ≤ rt + L →
        (GetWithTimeout c key timeout now).2
          = (resolveEntry (Entry.fresh V) v e L rt).getWithTimeout timeout)
    ∧ (0 ≤ L → rt + L < now →
        (GetWithTimeout c key timeout now).2 = GetResult.done default (some Err.expired))
    ∧ (L < 0 → ∀ t : Int, (resolveEntry (Entry.fresh V) v e L rt).Expired t = false)
    ∧ (L < 0 →
        (GetWithTimeout c key timeout now).2
          = (resolveEntry (Entry.fresh V) v e L rt).getWithTimeout timeout) := by
  have hneg : L < 0 → ∀ t : Int, (resolveEntry (Entry.fresh V) v e L rt).Expired t = false := by
    intro hL t
    simp [resolveEntry, Entry.Expired, Entry.fresh, not_le.mpr hL]
  refine ⟨?_, fun hL hle => ?_, fun hL hlt => ?_, hneg, fun hL => ?_⟩
  · cases e <;> simp [resolveEntry, Entry.getWithTimeout]
  · rw [GetWithTimeout_snd, hfind]
    have hexp : (resolveEntry (Entry.fresh V) v e L rt).Expired now = false := by
      simp [resolveEntry, Entry.Expired, hL, not_lt.mpr hle]
    simp [hexp]
  · rw [GetWithTimeout_snd, hfind]
    have hexp : (resolveEntry (Entry.fresh V) v e L rt).Expired now = true := by
      simp [resolveEntry, Entry.Expired, hL, hlt]
    simp [hexp]
  · rw [GetWithTimeout_snd, hfind]
    simp [hneg hL now]

/-- Witness for C3: a slot resolved at time 100 with lifetime 10 is
retrieved at time 105 with its value 7. -/
theorem C3_expiration_witness :
    (GetWithTimeout c3Cache 1 (-1) 105).2 = GetResult.done 7 none := by
  have h := C3_expiration Nat Nat c3Cache 1 7 none 10 100 (-1) 105 (by decide)
  rw [h.2.1 (by decide) (by decide)]
  decide

/-- C4: for any key present in the store, `GetWithTimeout` with statistics
enabled increments `Hits` (uint32 wrap) and leaves `Misses` unchanged,
whatever the state of the slot; and when the slot is expired the call
returns `ErrExpired` for every timeout — including the infinite one — so
the slot's signal is never awaited. -/
theorem C4_hit_recorded_and_expired_immediate (K V : Type) [DecidableEq K] [Inhabited V]
    (c : Cache K V) (key : K) (en : Entry V) (timeout now : Int)
    (hfind : storeFind c.store key = some en) (hstats : c.withStats = true) :
    ((GetWithTimeout c key timeout now).1.hits = (c.hits + 1) % 2 ^ 32
      ∧ (GetWithTimeout c key timeout now).1.misses = c.misses)
    ∧ (en.Expired now = true →
        (GetWithTimeout c key timeout now).2 = GetResult.done default (some Err.expired)) := by
  refine ⟨?_, fun hexp => ?_⟩
  · rw [GetWithTimeout_fst]
    exact getEntry_stats_hit K V c key en hfind hstats
  · rw [GetWithTimeout_snd, hfind]
    simp [hexp]

/-- Witness for C4: an expired slot read at time 200 with an infinite
timeout counts a hit and returns `ErrExpired` at once. -/
theorem C4_hit_recorded_and_expired_immediate_witness :
    ((GetWithTimeout c4Cache 1 (-1) 200).1.hits = (3 + 1) % 2 ^ 32
      ∧ (GetWithTimeout c4Cache 1 (-1) 200).1.misses = 4)
    ∧ ((resolveEntry (Entry.fresh Nat) 7 none 10 100).Expired 200 = true →
        (GetWithTimeout c4Cache 1 (-1) 200).2 = GetResult.done default (some Err.expired)) :=
  C4_hit_recorded_and_expired_immediate Nat Nat c4Cache
    1 (resolveEntry (Entry.fresh Nat) 7 none 10 100) (-1) 200 (by decide) rfl

/-- C5: for a key absent from the store, `Get` and `GetWithTimeout` return
`ErrEntryNotFound` (with the zero value), and with statistics enabled the
call increments `Misses` (uint32 wrap) and leaves `Hits` unchanged. -/
theorem C5_entry_not_found (K V : Type) [DecidableEq K] [Inhabited V]
    (c : Cache K V) (key : K) (timeout now : Int)
    (hfind : storeFind c.store key = none) :
    (GetWithTimeout c key timeout now).2 = GetResult.done default (some Err.entryNotFound)
    ∧ (Get c key now).2 = GetResult.done default (some Err.entryNotFound)
    ∧ (c.withStats = true →
        (GetWithTimeout c key timeout now).1.misses = (c.misses + 1) % 2 ^ 32
        ∧ (GetWithTimeout c key timeout now).1.hits = c.hits) := by
  refine ⟨?_, ?_, fun hstats => ?_⟩
  · rw [GetWithTimeout_snd, hfind]
  · unfold Get
    rw [GetWithTimeout_snd, hfind]
  · rw [GetWithTimeout_fst]
    exact getEntry_stats_miss K V c key hfind hstats

/-- Witness for C5: a never-reserved key misses and returns
`ErrEntryNotFound`. -/
theorem C5_entry_not_found_witness :
    (GetWithTimeout c5Cache 1 (-1) 0).2 = GetResult.done default (some Err.entryNotFound)
    ∧ (Get c5Cache 1 0).2 = GetResult.done default (some Err.entryNotFound)
    ∧ (c5Cache.withStats = true →
        (GetWithTimeout c5Cache 1 (-1) 0).1.misses = (4 + 1) % 2 ^ 32
        ∧ (GetWithTimeout c5Cache 1 (-1) 0).1.hits = 3) :=
  C5_entry_not_found Nat Nat c5Cache 1 (-1) 0 rfl

/-- C6: `GetWithTimeout(key, 0)` on a pending, unexpired slot returns
`ErrGetCacheTimeout` without blocking, leaving the pending entry bound to
the key unchanged (the reservation is undisturbed); after resolution the
same call returns the resolved value. -/
theorem C6_zero_timeout_poll (K V : Type) [DecidableEq K] [Inhabited V]
    (c : Cache K V) (key : K) (en : Entry V) (now : Int)
    (hfind : storeFind c.store key = some en) (hexp : en.Expired now = false) :
    (en.lock = true →
      (GetWithTimeout c key 0 now).2 = GetResult.done default (some Err.getCacheTimeout)
      ∧ storeFind (GetWithTimeout c key 0 now).1.store key = some en)
    ∧ (en.lock = false → en.err = none →
      (GetWithTimeout c key 0 now).2 = GetResult.done en.value none) := by
  refine ⟨fun hlock => ⟨?_, ?_⟩, fun hlock herr => ?_⟩
  · rw [GetWithTimeout_snd, hfind]
    simp [hexp, Entry.getWithTimeout, hlock]
  · rw [GetWithTimeout_fst, getEntry_store, storeFind_lruGet_self]
    exact hfind
  · rw [GetWithTimeout_snd, hfind]
    simp [hexp, Entry.getWithTimeout, hlock, herr]

/-- Witness for C6: polling the pending slot of `c6Cache` with timeout 0
returns `ErrGetCacheTimeout` and leaves the reservation in place. -/
theorem C6_zero_timeout_poll_witness :
    ((Entry.fresh Nat).lock = true →
      (GetWithTimeout c6Cache 1 0 0).2 = GetResult.done default (some Err.getCacheTimeout)
      ∧ storeFind (GetWithTimeout c6Cache 1 0 0).1.store 1 = some (Entry.fresh Nat))
    ∧ ((Entry.fresh Nat).lock = false → (Entry.fresh Nat).err = none →
      (GetWithTimeout c6Cache 1 0 0).2 = GetResult.done (Entry.fresh Nat).value none) :=
  C6_zero_timeout_poll Nat Nat c6Cache 1 (Entry.fresh Nat) 0 (by decide) rfl

/-- C7: with capacity 5, after reserving and resolving "1".."5" the length
is 5; reserving and resolving "6" evicts "1" and keeps the length at 5;
`Get("2")` succeeds and marks "2" recently used, so reserving and resolving
"7" evicts "3" instead of "2", and `Get("2")` still returns "value2". -/
theorem C7_lru_eviction_scenario :
    New String String [COption.withSize 5] = Except.ok evictCache0
    ∧ Len evictCache5 = 5
    ∧ (Get evictCache6 "1" 0).2 = GetResult.done default (some Err.entryNotFound)
    ∧ Len evictCache6 = 5
    ∧ (Get evictCache6 "2" 0).2 = GetResult.done "value2" none
    ∧ (Get evictCache7 "3" 0).2 = GetResult.done default (some Err.entryNotFound)
    ∧ (Get evictCache7 "2" 0).2 = GetResult.done "value2" none := by
  refine ⟨rfl, rfl, rfl, rfl, rfl, rfl, rfl⟩

/-- C8: `New` without options builds a cache with capacity 1024, statistics
disabled and default lifetime -1 (no expiration); `New(WithSize(n))` for
any n ≤ 0 fails with the configuration error instead of returning a
cache. -/
theorem C8_new_defaults_and_invalid_size (K V : Type) :
    New K V []
      = Except.ok { store := [], size := 1024, withStats := false,
                    defaultLifetime := -1, hits := 0, misses := 0 }
    ∧ (∀ n : Int, n ≤ 0 →
        New K V [COption.withSize n] = Except.error "must provide a positive size") := by
  constructor
  · rfl
  · intro n hn
    unfold New defaultOptions COption.applyOpt
    simp [hn]

/-- Witness for C8: `New(WithSize(-1))` fails with the configuration
error. -/
theorem C8_new_defaults_and_invalid_size_witness :
    New Nat Nat [COption.withSize (-1)] = Except.error "must provide a positive size" :=
  (C8_new_defaults_and_invalid_size Nat Nat).2 (-1) (by decide)

/-- C9: a slot resolved with a non-nil error yields, from any unexpired
`Get`/`GetWithTimeout`, the zero value of the value type together with that
error; the value argument passed alongside the error is stored in the slot
but never returned. -/
theorem C9_error_resolution_returns_zero_value (K V : Type) [DecidableEq K] [Inhabited V]
    (c : Cache K V) (key : K) (w : V) (er : Err) (L rt timeout now : Int)
    (hfind : storeFind c.store key = some (resolveEntry (Entry.fresh V) w (some er) L rt))
    (hexp : (resolveEntry (Entry.fresh V) w (some er) L rt).Expired now = false) :
    (GetWithTimeout c key timeout now).2 = GetResult.done default (some er)
    ∧ (resolveEntry (Entry.fresh V) w (some er) L rt).value = w := by
  refine ⟨?_, rfl⟩
  rw [GetWithTimeout_snd, hfind]
  simp only [hexp, Bool.false_eq_true, if_false]
  simp [Entry.getWithTimeout, resolveEntry]

/-- Witness for C9: a slot resolved with value 7 and a producer error
returns the zero value 0 with that error, while 7 stays stored. -/
theorem C9_error_resolution_returns_zero_value_witness :
    (GetWithTimeout c9Cache 1 (-1) 200).2 = GetResult.done default (some (Err.producer 9))
    ∧ (resolveEntry (Entry.fresh Nat) 7 (some (Err.producer 9)) (-1) 100).value = 7 :=
  C9_error_resolution_returns_zero_value Nat Nat c9Cache 1 7 (Err.producer 9)
    (-1) 100 (-1) 200 (by decide) rfl

/-- C10: `ReserveWithLifetime` always inserts the fresh pending entry, whose
`expireAt` is the zero sentinel whatever lifetime was requested, so it is
not expired at any time; consequently `GetWithTimeout` on a cache whose slot
for the key is still pending never returns `ErrExpired`, for any timeout and
any current time. -/
theorem C10_pending_never_expired (K V : Type) [DecidableEq K] [Inhabited V]
    (c : Cache K V) (key : K) (lifetime timeout now : Int) (hcap : 0 < c.size) :
    storeFind (ReserveWithLifetime c key lifetime).store key = some (Entry.fresh V)
    ∧ (Entry.fresh V).expireAt = none
    ∧ (∀ t : Int, (Entry.fresh V).Expired t = false)
    ∧ (∀ c' : Cache K V, storeFind c'.store key = some (Entry.fresh V) →
        (GetWithTimeout c' key timeout now).2 = (Entry.fresh V).getWithTimeout timeout
        ∧ ∀ vv : V, (GetWithTimeout c' key timeout now).2 ≠ GetResult.done vv (some Err.expired)) := by
  have hfreshexp : ∀ t : Int, (Entry.fresh V).Expired t = false := by
    intro t
    simp [Entry.fresh, Entry.Expired]
  refine ⟨?_, rfl, hfreshexp, fun c' hfind => ⟨?_, fun vv => ?_⟩⟩
  · exact storeFind_lruAdd_self K V c.store c.size key (Entry.fresh V) hcap
  · rw [GetWithTimeout_snd, hfind]
    simp [hfreshexp now]
  · rw [GetWithTimeout_snd, hfind]
    simp only [hfreshexp now, Bool.false_eq_true, if_false]
    unfold Entry.getWithTimeout
    by_cases ht : timeout < 0
    · simp [Entry.fresh, ht]
    · simp [Entry.fresh, ht]

/-- Witness for C10: reserving key 1 in the empty capacity-2 cache leaves a
pending, never-expired slot, and polling it never reports expiry. -/
theorem C10_pending_never_expired_witness :
    storeFind (ReserveWithLifetime c10Cache 1 30).store 1 = some (Entry.fresh Nat)
    ∧ (Entry.fresh Nat).expireAt = none
    ∧ (∀ t : Int, (Entry.fresh Nat).Expired t = false)
    ∧ (∀ c' : Cache Nat Nat, storeFind c'.store 1 = some (Entry.fresh Nat) →
        (GetWithTimeout c' 1 0 99).2 = (Entry.fresh Nat).getWithTimeout 0
        ∧ ∀ vv : Nat, (GetWithTimeout c' 1 0 99).2 ≠ GetResult.done vv (some Err.expired)) :=
  C10_pending_never_expired Nat Nat c10Cache 1 30 0 99 (by decide)

end Kocache
